import Mathlib

set_option maxRecDepth 100000
set_option maxHeartbeats 2000000

/-
Verification of the pywincffi declaration tables and FD-adapter shim.

The repository consists of three declarative tables (constants, struct
layouts, function signatures) plus a small C shim (`handle_from_fd`,
`socket_from_fd`).  We embed:

  * each declaration file as the list of its text lines, transcribed
    verbatim (braces and apostrophes written as \x7b, \x7d, \x27 escapes);
  * the line-oriented scanning conventions used to extract declared names;
  * the function-signature tables as structured descriptors;
  * the struct descriptors (field names, order, types, the anonymous
    union in OVERLAPPED) as structured data;
  * the C shim functions over an explicit model of the platform
    environment (the `_get_osfhandle` descriptor table) and of the
    CPython object heap (`PyLong_FromLong` boxing).
-/

namespace PyWinCFFI

/-! ## Transcription of src/pywincffi/core/cdefs/headers/constants.h -/

/-- The lines of `src/pywincffi/core/cdefs/headers/constants.h`,
transcribed verbatim (148 lines). -/
def constantsHLines : List String := [
  "//",
  "// This file contains constants which can be used either internally or",
  "// by users of pywincffi.",
  "//",
  "// NOTE: The tests for this file, tests/test_core/test_cdefs/test_constants.py",
  "//       depend on a constant\x27s names to follow this format:",
  "//           #define NAME ...",
  "//",
  "",
  "// General or system wide constants",
  "#define MAX_PATH ...",
  "#define STD_INPUT_HANDLE ...",
  "#define STD_OUTPUT_HANDLE ...",
  "#define STD_ERROR_HANDLE ...",
  "",
  "// Flags for pywincffi.kernel32.process (may be shared with other modules too)",
  "#define PROCESS_CREATE_PROCESS ...",
  "#define PROCESS_CREATE_THREAD ...",
  "#define PROCESS_DUP_HANDLE ...",
  "#define PROCESS_QUERY_INFORMATION ...",
  "#define PROCESS_QUERY_LIMITED_INFORMATION ...",
  "#define PROCESS_SET_INFORMATION ...",
  "#define PROCESS_SET_QUOTA ...",
  "#define PROCESS_SUSPEND_RESUME ...",
  "#define PROCESS_TERMINATE ...",
  "#define PROCESS_VM_OPERATION ...",
  "#define PROCESS_VM_READ ...",
  "#define PROCESS_VM_WRITE ...",
  "#define STILL_ACTIVE ...",
  "",
  "// Process creation flags",
  "// https://msdn.microsoft.com/en-us/library/ms684863",
  "#define CREATE_BREAKAWAY_FROM_JOB ...",
  "#define CREATE_PROTECTED_PROCESS ...",
  "#define CREATE_DEFAULT_ERROR_MODE ...",
  "#define CREATE_NEW_CONSOLE ...",
  "#define CREATE_NEW_PROCESS_GROUP ...",
  "#define CREATE_NO_WINDOW ...",
  "#define CREATE_PROTECTED_PROCESS ...",
  "#define CREATE_PRESERVE_CODE_AUTHZ_LEVEL ...",
  "#define CREATE_SEPARATE_WOW_VDM ...",
  "#define CREATE_SHARED_WOW_VDM ...",
  "#define CREATE_SUSPENDED ...",
  "#define CREATE_UNICODE_ENVIRONMENT ...",
  "#define DEBUG_ONLY_THIS_PROCESS ...",
  "#define DEBUG_PROCESS ...",
  "#define DETACHED_PROCESS ...",
  "#define EXTENDED_STARTUPINFO_PRESENT ...",
  "",
  "// Return values of WaitForSingleObject",
  "// https://msdn.microsoft.com/en-us/library/ms687032",
  "#define WAIT_ABANDONED ...",
  "#define WAIT_OBJECT_0 ...",
  "#define WAIT_TIMEOUT ...",
  "#define WAIT_FAILED ...",
  "#define INFINITE ...",
  "",
  "// Flags for pywincffi.kernel32.io (may be shared with other modules too)",
  "#define SYNCHRONIZE ...",
  "#define FILE_GENERIC_READ ...",
  "#define FILE_GENERIC_WRITE ...",
  "#define FILE_GENERIC_EXECUTE ...",
  "#define FILE_ADD_FILE ...",
  "#define FILE_ADD_SUBDIRECTORY ...",
  "#define FILE_ALL_ACCESS ...",
  "#define FILE_APPEND_DATA ...",
  "#define FILE_CREATE_PIPE_INSTANCE ...",
  "#define FILE_DELETE_CHILD ...",
  "#define FILE_EXECUTE ...",
  "#define FILE_LIST_DIRECTORY ...",
  "#define FILE_READ_ATTRIBUTES ...",
  "#define FILE_READ_DATA ...",
  "#define FILE_READ_EA ...",
  "#define FILE_TRAVERSE ...",
  "#define FILE_WRITE_ATTRIBUTES ...",
  "#define FILE_WRITE_DATA ...",
  "#define FILE_WRITE_EA ...",
  "#define FILE_SHARE_DELETE ...",
  "#define FILE_SHARE_READ ...",
  "#define FILE_SHARE_WRITE ...",
  "#define FILE_ATTRIBUTE_ARCHIVE ...",
  "#define FILE_ATTRIBUTE_ENCRYPTED ...",
  "#define FILE_ATTRIBUTE_HIDDEN ...",
  "#define FILE_ATTRIBUTE_NORMAL ...",
  "#define FILE_ATTRIBUTE_OFFLINE ...",
  "#define FILE_ATTRIBUTE_READONLY ...",
  "#define FILE_ATTRIBUTE_SYSTEM ...",
  "#define FILE_ATTRIBUTE_TEMPORARY ...",
  "#define FILE_FLAG_BACKUP_SEMANTICS ...",
  "#define FILE_FLAG_DELETE_ON_CLOSE ...",
  "#define FILE_FLAG_NO_BUFFERING ...",
  "#define FILE_FLAG_OPEN_NO_RECALL ...",
  "#define FILE_FLAG_OPEN_REPARSE_POINT ...",
  "#define FILE_FLAG_OVERLAPPED ...",
  "#define FILE_FLAG_POSIX_SEMANTICS ...",
  "#define FILE_FLAG_RANDOM_ACCESS ...",
  "#define FILE_FLAG_SESSION_AWARE ...",
  "#define FILE_FLAG_SEQUENTIAL_SCAN ...",
  "#define FILE_FLAG_WRITE_THROUGH ...",
  "#define CREATE_ALWAYS ...",
  "#define CREATE_NEW ...",
  "#define OPEN_ALWAYS ...",
  "#define OPEN_EXISTING ...",
  "#define TRUNCATE_EXISTING ...",
  "",
  "// Flags for pywincffi.kernel32.pipe (may be shared with other modules too)",
  "#define PIPE_TYPE_MESSAGE ...",
  "#define PIPE_READMODE_BYTE ...",
  "#define PIPE_READMODE_MESSAGE ...",
  "#define PIPE_WAIT ...",
  "#define PIPE_NOWAIT ...",
  "#define PIPE_CLIENT_END ...",
  "#define PIPE_SERVER_END ...",
  "#define PIPE_TYPE_BYTE ...",
  "#define PIPE_TYPE_MESSAGE ...",
  "",
  "// Flags for MoveFileEx",
  "#define MOVEFILE_COPY_ALLOWED ...",
  "#define MOVEFILE_CREATE_HARDLINK ...",
  "#define MOVEFILE_DELAY_UNTIL_REBOOT ...",
  "#define MOVEFILE_FAIL_IF_NOT_TRACKABLE ...",
  "#define MOVEFILE_REPLACE_EXISTING ...",
  "#define MOVEFILE_WRITE_THROUGH ...",
  "",
  "// General security",
  "#define SECURITY_ANONYMOUS ...",
  "#define SECURITY_CONTEXT_TRACKING ...",
  "#define SECURITY_DELEGATION ...",
  "#define SECURITY_EFFECTIVE_ONLY ...",
  "#define SECURITY_IDENTIFICATION ...",
  "#define SECURITY_IMPERSONATION ...",
  "#define STANDARD_RIGHTS_READ ...",
  "#define STANDARD_RIGHTS_WRITE ...",
  "#define GENERIC_ALL ...",
  "#define GENERIC_READ ...",
  "#define GENERIC_WRITE ...",
  "",
  "// Errors",
  "#define ERROR_INVALID_PARAMETER ...",
  "#define ERROR_ACCESS_DENIED ...",
  "#define ERROR_ALREADY_EXISTS ...",
  "#define ERROR_NOT_SAME_DEVICE ...",
  "",
  "// For the moment, we can\x27t define this here.  When cffi",
  "// parses the header this returns -1 and cffi seems to",
  "// only handle positive integers right now.",
  "//#define INVALID_HANDLE_VALUE ...",
  ""]

/-! ## Line-oriented scanning conventions -/

/-- Characters that may appear in a C identifier. -/
def isNameChar (c : Char) : Bool := c.isAlpha || c.isDigit || c = '_'

/-- The scanning convention for the constants table, as documented in the
file itself: a constant declaration is a line of the form
`#define NAME ...`; the declared name is the identifier after
`#define `.  Any other line declares nothing. -/
def defineName? (line : String) : Option String :=
  match line.data with
  | '#' :: 'd' :: 'e' :: 'f' :: 'i' :: 'n' :: 'e' :: ' ' :: rest =>
      let n := rest.takeWhile isNameChar
      if n.isEmpty then none else some (String.mk n)
  | _ => none

/-- All constant names declared in a constants file, in order of
appearance (duplicates kept). -/
def extractDefines (lines : List String) : List String :=
  lines.filterMap defineName?

/-! ## Transcription of src/pywincffi/core/cdefs/headers/structs.h -/

/-- The lines of `src/pywincffi/core/cdefs/headers/structs.h`,
transcribed verbatim (70 lines; braces written as escapes). -/
def structsHLines : List String := [
  "",
  "//",
  "// NOTE: The tests for this file, tests/test_core/test_cdefs/test_structs.py",
  "//       depend on a struct\x27s names to follow this format:",
  "//           \x7d NAME, NAME, NAME;",
  "//",
  "",
  "// https://msdn.microsoft.com/en-us/library/aa379560",
  "typedef struct _SECURITY_ATTRIBUTES \x7b",
  "    DWORD  nLength;",
  "    LPVOID lpSecurityDescriptor;",
  "    BOOL   bInheritHandle;",
  "\x7d SECURITY_ATTRIBUTES, *PSECURITY_ATTRIBUTES, *LPSECURITY_ATTRIBUTES;",
  "",
  "// https://msdn.microsoft.com/en-us/library/ms684342",
  "typedef struct _OVERLAPPED \x7b",
  "  ULONG_PTR Internal;",
  "  ULONG_PTR InternalHigh;",
  "  union \x7b",
  "    struct \x7b",
  "      DWORD Offset;",
  "      DWORD OffsetHigh;",
  "    \x7d;",
  "    PVOID  Pointer;",
  "  \x7d;",
  "  HANDLE    hEvent;",
  "\x7d OVERLAPPED, *LPOVERLAPPED;",
  "",
  "// https://msdn.microsoft.com/en-us/library/ms724284",
  "typedef struct _FILETIME \x7b",
  "  DWORD dwLowDateTime;",
  "  DWORD dwHighDateTime;",
  "\x7d FILETIME, *PFILETIME;",
  "",
  "// https://msdn.microsoft.com/en-us/library/aa363788",
  "typedef struct _BY_HANDLE_FILE_INFORMATION \x7b",
  "  DWORD    dwFileAttributes;",
  "  FILETIME ftCreationTime;",
  "  FILETIME ftLastAccessTime;",
  "  FILETIME ftLastWriteTime;",
  "  DWORD    dwVolumeSerialNumber;",
  "  DWORD    nFileSizeHigh;",
  "  DWORD    nFileSizeLow;",
  "  DWORD    nNumberOfLinks;",
  "  DWORD    nFileIndexHigh;",
  "  DWORD    nFileIndexLow;",
  "\x7d BY_HANDLE_FILE_INFORMATION, *PBY_HANDLE_FILE_INFORMATION, *LPBY_HANDLE_FILE_INFORMATION;",
  "",
  "// https://msdn.microsoft.com/en-us/library/ms686331",
  "typedef struct _STARTUPINFO \x7b",
  "  DWORD  cb;",
  "  LPTSTR lpReserved;",
  "  LPTSTR lpDesktop;",
  "  LPTSTR lpTitle;",
  "  DWORD  dwX;",
  "  DWORD  dwY;",
  "  DWORD  dwXSize;",
  "  DWORD  dwYSize;",
  "  DWORD  dwXCountChars;",
  "  DWORD  dwYCountChars;",
  "  DWORD  dwFillAttribute;",
  "  DWORD  dwFlags;",
  "  WORD   wShowWindow;",
  "  WORD   cbReserved2;",
  "  LPBYTE lpReserved2;",
  "  HANDLE hStdInput;",
  "  HANDLE hStdOutput;",
  "  HANDLE hStdError;",
  "\x7d STARTUPINFO, *LPSTARTUPINFO;",
  ""]

/-! ## Transcription of src/pywincffi/core/cdefs/headers/functions.h -/

/-- The lines of `src/pywincffi/core/cdefs/headers/functions.h`,
transcribed verbatim (31 lines). -/
def functionsHLines : List String := [
  "//",
  "// NOTE: The tests for this file, tests/test_core/test_cdefs/test_functions.py",
  "//       depend on a function\x27s format to be the following:",
  "//           RETURN_TYPE FunctionName(...",
  "//",
  "",
  "// Custom functions",
  "VOID SetLastError(DWORD);",
  "",
  "// Processes",
  "HANDLE OpenProcess(DWORD, BOOL, DWORD);",
  "HANDLE GetCurrentProcess();",
  "DWORD GetProcessId(HANDLE);",
  "",
  "// Pipes",
  "BOOL CreatePipe(PHANDLE, PHANDLE, LPSECURITY_ATTRIBUTES, DWORD);",
  "BOOL PeekNamedPipe(HANDLE, LPVOID, DWORD, LPDWORD, LPDWORD, LPDWORD);",
  "BOOL GetNamedPipeInfo(HANDLE, LPDWORD, LPDWORD, LPDWORD, LPDWORD);",
  "BOOL SetNamedPipeHandleState(HANDLE, LPDWORD, LPDWORD, LPDWORD);",
  "BOOL GetNamedPipeHandleState(",
  "    HANDLE, LPDWORD, LPDWORD, LPDWORD, LPDWORD, LPTSTR, DWORD);",
  "",
  "// Files",
  "BOOL WriteFile(HANDLE, LPCVOID, DWORD, LPDWORD, LPOVERLAPPED);",
  "BOOL ReadFile(HANDLE, LPVOID, DWORD, LPDWORD, LPOVERLAPPED);",
  "",
  "// Handles",
  "HANDLE handle_from_fd(int);",
  "BOOL CloseHandle(HANDLE);",
  "HANDLE GetStdHandle(DWORD);",
  ""]

/-! ## Scanning conventions for struct and function declarations -/

/-- The closing-brace character, written without a brace literal. -/
def rbraceChar : Char := Char.ofNat 125

/-- Drop leading spaces. -/
def dropSpaces (cs : List Char) : List Char := cs.dropWhile (fun c => c = ' ')

/-- Split a character list on commas. -/
def splitCommaAux : List Char → List Char → List (List Char)
  | [], acc => [acc.reverse]
  | c :: rest, acc =>
      if c = ',' then acc.reverse :: splitCommaAux rest []
      else splitCommaAux rest (c :: acc)

/-- Clean one typedef name from a struct closing line: trim spaces and a
leading pointer star, keep the identifier. -/
def cleanTypedefName (cs : List Char) : String :=
  match dropSpaces cs with
  | '*' :: r => String.mk (r.takeWhile isNameChar)
  | t => String.mk (t.takeWhile isNameChar)

/-- The scanning convention for the structs table, as documented in the
file itself: a struct declaration ends in a closing line of the form
`\x7d NAME, NAME, NAME;`; the declared names are the comma-separated
identifiers (pointer stars dropped).  A bare closing line with no names
(e.g. the inner union or struct of OVERLAPPED) declares nothing. -/
def structNames? (line : String) : Option (List String) :=
  match dropSpaces line.data with
  | c :: rest =>
      if c = rbraceChar then
        match (dropSpaces rest).reverse with
        | ';' :: revBody =>
            let names := (splitCommaAux revBody.reverse []).map cleanTypedefName
            if names.any (fun n => n.isEmpty) then none else some names
        | _ => none
      else none
  | [] => none

/-- All struct typedef names declared in a structs file, in order. -/
def extractStructNames (lines : List String) : List String :=
  (lines.filterMap structNames?).flatten

/-- The scanning convention for the functions table as documented in the
file itself (`RETURN_TYPE FunctionName(...`): a function declaration
line starts at column 0 with a return-type identifier, a space, the
function name and an opening parenthesis; the parameter list may
continue on following lines. -/
def funNameDecl? (line : String) : Option String :=
  let cs := line.data
  let ret := cs.takeWhile isNameChar
  if ret.isEmpty then none else
  match cs.drop ret.length with
  | ' ' :: rest =>
      let nm := rest.takeWhile isNameChar
      if nm.isEmpty then none else
      match rest.drop nm.length with
      | '(' :: _ => some (String.mk nm)
      | _ => none
  | _ => none

/-- The function-line convention exactly as the specification words it:
a single line of the form `RETURNTYPE Name(params);`, i.e. the whole
declaration, closing parenthesis and semicolon included, on one line. -/
def funNameStrict? (line : String) : Option String :=
  let cs := line.data
  let ret := cs.takeWhile isNameChar
  if ret.isEmpty then none else
  match cs.drop ret.length with
  | ' ' :: rest =>
      let nm := rest.takeWhile isNameChar
      if nm.isEmpty then none else
      match rest.drop nm.length with
      | '(' :: rest2 =>
          match rest2.reverse with
          | ';' :: ')' :: _ => some (String.mk nm)
          | _ => none
      | _ => none
  | _ => none

/-- All function names declared in a functions file (documented
convention, declaration may span lines). -/
def extractFunsDecl (lines : List String) : List String :=
  lines.filterMap funNameDecl?

/-- All function names whose whole declaration sits on a single line
(the convention as the specification words it). -/
def extractFunsStrict (lines : List String) : List String :=
  lines.filterMap funNameStrict?

/-! ## Ground-truth declaration name lists

Read off the three declaration files by hand, in order of appearance,
duplicates kept. -/

/-- The constant names declared by the `#define` lines of constants.h,
in file order.  `CREATE_PROTECTED_PROCESS` is declared twice (lines 34
and 39), and so is `PIPE_TYPE_MESSAGE` (lines 107 and 115). -/
def constantsDeclared : List String := [
  "MAX_PATH", "STD_INPUT_HANDLE", "STD_OUTPUT_HANDLE", "STD_ERROR_HANDLE",
  "PROCESS_CREATE_PROCESS", "PROCESS_CREATE_THREAD", "PROCESS_DUP_HANDLE",
  "PROCESS_QUERY_INFORMATION", "PROCESS_QUERY_LIMITED_INFORMATION",
  "PROCESS_SET_INFORMATION", "PROCESS_SET_QUOTA", "PROCESS_SUSPEND_RESUME",
  "PROCESS_TERMINATE", "PROCESS_VM_OPERATION", "PROCESS_VM_READ",
  "PROCESS_VM_WRITE", "STILL_ACTIVE",
  "CREATE_BREAKAWAY_FROM_JOB", "CREATE_PROTECTED_PROCESS",
  "CREATE_DEFAULT_ERROR_MODE", "CREATE_NEW_CONSOLE",
  "CREATE_NEW_PROCESS_GROUP", "CREATE_NO_WINDOW", "CREATE_PROTECTED_PROCESS",
  "CREATE_PRESERVE_CODE_AUTHZ_LEVEL", "CREATE_SEPARATE_WOW_VDM",
  "CREATE_SHARED_WOW_VDM", "CREATE_SUSPENDED", "CREATE_UNICODE_ENVIRONMENT",
  "DEBUG_ONLY_THIS_PROCESS", "DEBUG_PROCESS", "DETACHED_PROCESS",
  "EXTENDED_STARTUPINFO_PRESENT",
  "WAIT_ABANDONED", "WAIT_OBJECT_0", "WAIT_TIMEOUT", "WAIT_FAILED",
  "INFINITE",
  "SYNCHRONIZE", "FILE_GENERIC_READ", "FILE_GENERIC_WRITE",
  "FILE_GENERIC_EXECUTE", "FILE_ADD_FILE", "FILE_ADD_SUBDIRECTORY",
  "FILE_ALL_ACCESS", "FILE_APPEND_DATA", "FILE_CREATE_PIPE_INSTANCE",
  "FILE_DELETE_CHILD", "FILE_EXECUTE", "FILE_LIST_DIRECTORY",
  "FILE_READ_ATTRIBUTES", "FILE_READ_DATA", "FILE_READ_EA", "FILE_TRAVERSE",
  "FILE_WRITE_ATTRIBUTES", "FILE_WRITE_DATA", "FILE_WRITE_EA",
  "FILE_SHARE_DELETE", "FILE_SHARE_READ", "FILE_SHARE_WRITE",
  "FILE_ATTRIBUTE_ARCHIVE", "FILE_ATTRIBUTE_ENCRYPTED",
  "FILE_ATTRIBUTE_HIDDEN", "FILE_ATTRIBUTE_NORMAL", "FILE_ATTRIBUTE_OFFLINE",
  "FILE_ATTRIBUTE_READONLY", "FILE_ATTRIBUTE_SYSTEM",
  "FILE_ATTRIBUTE_TEMPORARY", "FILE_FLAG_BACKUP_SEMANTICS",
  "FILE_FLAG_DELETE_ON_CLOSE", "FILE_FLAG_NO_BUFFERING",
  "FILE_FLAG_OPEN_NO_RECALL", "FILE_FLAG_OPEN_REPARSE_POINT",
  "FILE_FLAG_OVERLAPPED", "FILE_FLAG_POSIX_SEMANTICS",
  "FILE_FLAG_RANDOM_ACCESS", "FILE_FLAG_SESSION_AWARE",
  "FILE_FLAG_SEQUENTIAL_SCAN", "FILE_FLAG_WRITE_THROUGH",
  "CREATE_ALWAYS", "CREATE_NEW", "OPEN_ALWAYS", "OPEN_EXISTING",
  "TRUNCATE_EXISTING",
  "PIPE_TYPE_MESSAGE", "PIPE_READMODE_BYTE", "PIPE_READMODE_MESSAGE",
  "PIPE_WAIT", "PIPE_NOWAIT", "PIPE_CLIENT_END", "PIPE_SERVER_END",
  "PIPE_TYPE_BYTE", "PIPE_TYPE_MESSAGE",
  "MOVEFILE_COPY_ALLOWED", "MOVEFILE_CREATE_HARDLINK",
  "MOVEFILE_DELAY_UNTIL_REBOOT", "MOVEFILE_FAIL_IF_NOT_TRACKABLE",
  "MOVEFILE_REPLACE_EXISTING", "MOVEFILE_WRITE_THROUGH",
  "SECURITY_ANONYMOUS", "SECURITY_CONTEXT_TRACKING", "SECURITY_DELEGATION",
  "SECURITY_EFFECTIVE_ONLY", "SECURITY_IDENTIFICATION",
  "SECURITY_IMPERSONATION", "STANDARD_RIGHTS_READ", "STANDARD_RIGHTS_WRITE",
  "GENERIC_ALL", "GENERIC_READ", "GENERIC_WRITE",
  "ERROR_INVALID_PARAMETER", "ERROR_ACCESS_DENIED", "ERROR_ALREADY_EXISTS",
  "ERROR_NOT_SAME_DEVICE"]

/-- The typedef names declared by the struct closing lines of structs.h,
in file order (pointer stars are declarator syntax, not part of the
name). -/
def structsDeclared : List String := [
  "SECURITY_ATTRIBUTES", "PSECURITY_ATTRIBUTES", "LPSECURITY_ATTRIBUTES",
  "OVERLAPPED", "LPOVERLAPPED",
  "FILETIME", "PFILETIME",
  "BY_HANDLE_FILE_INFORMATION", "PBY_HANDLE_FILE_INFORMATION",
  "LPBY_HANDLE_FILE_INFORMATION",
  "STARTUPINFO", "LPSTARTUPINFO"]

/-- The function names declared in functions.h, in file order
(GetNamedPipeHandleState is declared on lines 20-21, its parameter list
continuing on the second line). -/
def functionsDeclared : List String := [
  "SetLastError", "OpenProcess", "GetCurrentProcess", "GetProcessId",
  "CreatePipe", "PeekNamedPipe", "GetNamedPipeInfo",
  "SetNamedPipeHandleState", "GetNamedPipeHandleState",
  "WriteFile", "ReadFile", "handle_from_fd", "CloseHandle", "GetStdHandle"]

/-! ## List helpers with fast structural evaluation -/

/-- Occurrence count of a string in a list. -/
def countStr : List String → String → Nat
  | [], _ => 0
  | x :: xs, s => (if x = s then 1 else 0) + countStr xs s

/-- Boolean membership of a string in a list. -/
def memStr (s : String) : List String → Bool
  | [] => false
  | x :: xs => if x = s then true else memStr s xs

/-- Boolean membership of a natural in a list. -/
def memNat (n : Nat) : List Nat → Bool
  | [] => false
  | x :: xs => if x = n then true else memNat n xs

/-- Boolean pairwise distinctness of a list of naturals. -/
def distinctNat : List Nat → Bool
  | [] => true
  | x :: xs => !(memNat x xs) && distinctNat xs

/-- An injection-free encoding of strings as naturals, used only to
transport distinctness facts (distinctness of the images implies
distinctness of the strings, for any function). -/
def strCode (s : String) : Nat :=
  s.data.foldl (fun a c => a * 1114112 + c.toNat) 1

/-! ## Function Signature Table as structured descriptors -/

/-- One entry of a Function Signature Table: export name, return type,
ordered parameter types. -/
structure FunctionDescriptor where
  fname : String
  ret : String
  params : List String
deriving DecidableEq

/-- The function entries of `src/pywincffi/headers/kernel32.h`
(lines 21-30), transcribed in order.  `(void)` denotes an empty
parameter list. -/
def kernel32Functions : List FunctionDescriptor := [
  ⟨"GetCurrentProcess", "HANDLE", []⟩,
  ⟨"GetCurrentProcessId", "DWORD", []⟩,
  ⟨"GetProcessId", "DWORD", ["HANDLE"]⟩,
  ⟨"OpenProcess", "BOOL", ["DWORD", "BOOL", "DWORD"]⟩,
  ⟨"CreatePipe", "BOOL", ["PHANDLE", "PHANDLE", "LPSECURITY_ATTRIBUTES", "DWORD"]⟩,
  ⟨"CloseHandle", "BOOL", ["HANDLE"]⟩,
  ⟨"WriteFile", "BOOL", ["HANDLE", "LPCVOID", "DWORD", "LPDWORD", "LPOVERLAPPED"]⟩,
  ⟨"ReadFile", "BOOL", ["HANDLE", "LPCVOID", "DWORD", "LPDWORD", "LPOVERLAPPED"]⟩]

/-- The function entries of
`src/pywincffi/core/cdefs/headers/functions.h` (lines 8-30), transcribed
in order.  `()` denotes an empty parameter list; the
GetNamedPipeHandleState parameter list continues on line 21. -/
def functionsHFunctions : List FunctionDescriptor := [
  ⟨"SetLastError", "VOID", ["DWORD"]⟩,
  ⟨"OpenProcess", "HANDLE", ["DWORD", "BOOL", "DWORD"]⟩,
  ⟨"GetCurrentProcess", "HANDLE", []⟩,
  ⟨"GetProcessId", "DWORD", ["HANDLE"]⟩,
  ⟨"CreatePipe", "BOOL", ["PHANDLE", "PHANDLE", "LPSECURITY_ATTRIBUTES", "DWORD"]⟩,
  ⟨"PeekNamedPipe", "BOOL", ["HANDLE", "LPVOID", "DWORD", "LPDWORD", "LPDWORD", "LPDWORD"]⟩,
  ⟨"GetNamedPipeInfo", "BOOL", ["HANDLE", "LPDWORD", "LPDWORD", "LPDWORD", "LPDWORD"]⟩,
  ⟨"SetNamedPipeHandleState", "BOOL", ["HANDLE", "LPDWORD", "LPDWORD", "LPDWORD"]⟩,
  ⟨"GetNamedPipeHandleState", "BOOL", ["HANDLE", "LPDWORD", "LPDWORD", "LPDWORD", "LPDWORD", "LPTSTR", "DWORD"]⟩,
  ⟨"WriteFile", "BOOL", ["HANDLE", "LPCVOID", "DWORD", "LPDWORD", "LPOVERLAPPED"]⟩,
  ⟨"ReadFile", "BOOL", ["HANDLE", "LPVOID", "DWORD", "LPDWORD", "LPOVERLAPPED"]⟩,
  ⟨"handle_from_fd", "HANDLE", ["int"]⟩,
  ⟨"CloseHandle", "BOOL", ["HANDLE"]⟩,
  ⟨"GetStdHandle", "HANDLE", ["DWORD"]⟩]

/-! ## Struct Descriptors as structured data -/

/-- A scalar struct field: C type and field name. -/
structure ScalarField where
  ctype : String
  field : String
deriving DecidableEq

/-- A struct member: either a scalar field, or an anonymous union whose
first member is an anonymous struct of scalar fields and whose remaining
members are scalar fields. -/
inductive StructMember where
  | scalar (f : ScalarField)
  | anonUnion (structFields : List ScalarField) (directFields : List ScalarField)
deriving DecidableEq

/-- A struct descriptor: C tag, ordered members, typedef names. -/
structure StructDescriptor where
  tag : String
  members : List StructMember
  typedefNames : List String
deriving DecidableEq

/-- SECURITY_ATTRIBUTES as declared in
`src/pywincffi/core/cdefs/headers/structs.h` lines 9-13. -/
def securityAttributesCdefs : StructDescriptor :=
  ⟨"_SECURITY_ATTRIBUTES",
   [.scalar ⟨"DWORD", "nLength"⟩,
    .scalar ⟨"LPVOID", "lpSecurityDescriptor"⟩,
    .scalar ⟨"BOOL", "bInheritHandle"⟩],
   ["SECURITY_ATTRIBUTES", "PSECURITY_ATTRIBUTES", "LPSECURITY_ATTRIBUTES"]⟩

/-- SECURITY_ATTRIBUTES as declared in
`src/pywincffi/headers/kernel32.h` lines 1-5. -/
def securityAttributesKernel32 : StructDescriptor :=
  ⟨"_SECURITY_ATTRIBUTES",
   [.scalar ⟨"DWORD", "nLength"⟩,
    .scalar ⟨"LPVOID", "lpSecurityDescriptor"⟩,
    .scalar ⟨"BOOL", "bInheritHandle"⟩],
   ["SECURITY_ATTRIBUTES", "PSECURITY_ATTRIBUTES", "LPSECURITY_ATTRIBUTES"]⟩

/-- OVERLAPPED as declared in
`src/pywincffi/core/cdefs/headers/structs.h` lines 16-27. -/
def overlappedCdefs : StructDescriptor :=
  ⟨"_OVERLAPPED",
   [.scalar ⟨"ULONG_PTR", "Internal"⟩,
    .scalar ⟨"ULONG_PTR", "InternalHigh"⟩,
    .anonUnion [⟨"DWORD", "Offset"⟩, ⟨"DWORD", "OffsetHigh"⟩]
               [⟨"PVOID", "Pointer"⟩],
    .scalar ⟨"HANDLE", "hEvent"⟩],
   ["OVERLAPPED", "LPOVERLAPPED"]⟩

/-- OVERLAPPED as declared in
`src/pywincffi/headers/kernel32.h` lines 7-18. -/
def overlappedKernel32 : StructDescriptor :=
  ⟨"_OVERLAPPED",
   [.scalar ⟨"ULONG_PTR", "Internal"⟩,
    .scalar ⟨"ULONG_PTR", "InternalHigh"⟩,
    .anonUnion [⟨"DWORD", "Offset"⟩, ⟨"DWORD", "OffsetHigh"⟩]
               [⟨"PVOID", "Pointer"⟩],
    .scalar ⟨"HANDLE", "hEvent"⟩],
   ["OVERLAPPED", "LPOVERLAPPED"]⟩

/-! ## The C shim (src/pywincffi/core/cdefs/sources/main.c) -/

/-- The invalid-handle sentinel.  The source comments note that
`_get_osfhandle` returns -1 for an invalid descriptor and that cffi
cannot expose it as a constant because it is negative. -/
def INVALID_HANDLE_VALUE : Int := -1

/-- The platform environment visible to the shim: which descriptors are
open, and the native handle the OS associates with each.  Handles are
modelled as integers (`HANDLE` is an opaque pointer-sized value). -/
structure OSState where
  osfTable : Int → Option Int

/-- Modelled platform runtime query: `_get_osfhandle(fd)` returns the
native handle associated with an open descriptor `fd`, and the
invalid-handle sentinel when `fd` is not a valid open descriptor.  This
is a C-runtime function, not repository code; modelled as a pure table
lookup because it inspects per-process descriptor state and writes
nothing. -/
def get_osfhandle (st : OSState) (fd : Int) : Int :=
  match st.osfTable fd with
  | some h => h
  | none => INVALID_HANDLE_VALUE

/-- `handle_from_fd` from main.c lines 49-51:
`return (HANDLE)_get_osfhandle(fd);` — the cast reinterprets the
returned integer as a handle and is the identity on the modelled bit
pattern.  No branch, no exception path, no state write. -/
def handle_from_fd (st : OSState) (fd : Int) : Int :=
  get_osfhandle st fd

/-- The CPython interpreter heap: the next free object address, and the
values boxed so far (address, boxed integer). -/
structure PyHeap where
  nextAddr : Nat
  boxed : List (Nat × Int)

/-- Modelled CPython runtime call `PyLong_FromLong(v)`: allocates a
fresh Python integer object boxing `v` on the interpreter heap and
returns the address of that object (a `PyObject *`) — not `v` itself. -/
def pyLong_FromLong (h : PyHeap) (v : Int) : Nat × PyHeap :=
  (h.nextAddr, ⟨h.nextAddr + 32, (h.nextAddr, v) :: h.boxed⟩)

/-- Modelled CPython runtime call `PyLong_FromLongLong`: same allocation
behaviour, wider argument type. -/
def pyLong_FromLongLong (h : PyHeap) (v : Int) : Nat × PyHeap :=
  pyLong_FromLong h v

/-- `SIZEOF_LONG` on Windows builds (long is 4 bytes on both 32- and
64-bit Windows). -/
def SIZEOF_LONG : Nat := 4

/-- main.c lines 10-14: socket descriptor width chosen at build time by
the `MS_WIN64` preprocessor flag. -/
def SIZEOF_SOCKET_T (win64 : Bool) : Nat := if win64 then 8 else 4

/-- main.c lines 19-23: `PyLong_FromSocket_t(fd)` expands to
`PyLong_FromLong((SOCKET)(fd))` when `SIZEOF_SOCKET_T <= SIZEOF_LONG`
and to `PyLong_FromLongLong((SOCKET)(fd))` otherwise.  Either way the
macro returns a pointer to a fresh Python object. -/
def pyLong_FromSocket_t (win64 : Bool) (h : PyHeap) (fd : Int) : Nat × PyHeap :=
  if SIZEOF_SOCKET_T win64 ≤ SIZEOF_LONG then pyLong_FromLong h fd
  else pyLong_FromLongLong h fd

/-- The C cast `(int)` applied to a pointer value: keep the low 32 bits,
two-complement signed. -/
def toInt32 (n : Nat) : Int :=
  let m : Nat := n % 2 ^ 32
  if m < 2 ^ 31 then (m : Int) else (m : Int) - 2 ^ 32

/-- `socket_from_fd` from main.c lines 56-59, translated statement by
statement: `int value = (int)PyLong_FromSocket_t(fd);` truncates the
returned object POINTER to an int, then `return handle_from_fd(value);`
applies the descriptor-to-handle query to that truncated address. -/
def socket_from_fd (win64 : Bool) (st : OSState) (h : PyHeap) (fd : Int) :
    Int × PyHeap :=
  let r := pyLong_FromSocket_t win64 h fd
  (handle_from_fd st (toInt32 r.1), r.2)

/-- Modelled from the spec: the conversion C1 describes, mapping `fd` to
the platform native socket representation `(SOCKET)(fd)`, an unsigned
value sized to the platform pointer width (8 or 4 bytes chosen at build
time). -/
def nativeSocketRepr (win64 : Bool) (fd : Int) : Int :=
  fd % ((2 : Int) ^ (8 * SIZEOF_SOCKET_T win64))

/-- Modelled from the spec: `socket_from_fd` as claim C1 states it —
`handle_from_fd` composed with the native-socket conversion of `fd`,
with no intermediate loss. -/
def socket_from_fd_spec (win64 : Bool) (st : OSState) (fd : Int) : Int :=
  handle_from_fd st (nativeSocketRepr win64 fd)

/-! ## The constant-resolution fallbacks (main.c lines 29-47) -/

/-- The hard-coded fallback literals of main.c lines 29-47: each name is
given this value only when the platform headers do not define it. -/
def fallbackConstants : List (String × Int) := [
  ("FILE_FLAG_SESSION_AWARE", 0x00800000),
  ("STARTF_UNTRUSTEDSOURCE", 0x00008000),
  ("STARTF_PREVENTPINNING", 0x00002000),
  ("STARTF_TITLEISAPPID", 0x00001000),
  ("STARTF_TITLEISLINKNAME", 0x00000800)]

/-- Association-list lookup for the fallback table. -/
def lookupFallback : List (String × Int) → String → Option Int
  | [], _ => none
  | (k, v) :: rest, n => if k = n then some v else lookupFallback rest n

/-- Preprocessing semantics of the
`#if !defined(N)  static const int N = lit;  #endif` blocks: when the
platform headers define `N` the platform value stands untouched;
otherwise the hard-coded literal supplies it. -/
def resolveConstant (platformDefs : String → Option Int) (n : String) :
    Option Int :=
  match platformDefs n with
  | some v => some v
  | none => lookupFallback fallbackConstants n

/-- The four STARTF fallback names of main.c lines 33-47. -/
def startfFallbackNames : List String := [
  "STARTF_UNTRUSTEDSOURCE", "STARTF_PREVENTPINNING",
  "STARTF_TITLEISAPPID", "STARTF_TITLEISLINKNAME"]

/-! ## The OVERLAPPED union storage (structs.h lines 16-27)

On the target (64-bit little-endian Windows) DWORD is 4 bytes and PVOID
is 8; the anonymous union overlays the Offset/OffsetHigh pair and
Pointer on the same 8 bytes of storage, modelled as one natural number
holding those bytes (little-endian: Offset is the low 4 bytes). -/

/-- The OVERLAPPED record at runtime: the union storage is one shared
8-byte region. -/
structure OVERLAPPED where
  Internal : Nat
  InternalHigh : Nat
  unionBytes : Nat
  hEvent : Nat

/-- Read the `Offset` view: low 4 bytes of the union storage. -/
def OVERLAPPED.Offset (o : OVERLAPPED) : Nat := o.unionBytes % 2 ^ 32

/-- Read the `OffsetHigh` view: high 4 bytes of the union storage. -/
def OVERLAPPED.OffsetHigh (o : OVERLAPPED) : Nat :=
  o.unionBytes / 2 ^ 32 % 2 ^ 32

/-- Read the `Pointer` view: all 8 bytes of the union storage. -/
def OVERLAPPED.Pointer (o : OVERLAPPED) : Nat := o.unionBytes % 2 ^ 64

/-- Write the `Offset` field: replace the low 4 bytes only. -/
def OVERLAPPED.setOffset (o : OVERLAPPED) (v : Nat) : OVERLAPPED :=
  { o with unionBytes := 2 ^ 32 * (o.unionBytes % 2 ^ 64 / 2 ^ 32) + v % 2 ^ 32 }

/-- Write the `OffsetHigh` field: replace the high 4 bytes only. -/
def OVERLAPPED.setOffsetHigh (o : OVERLAPPED) (v : Nat) : OVERLAPPED :=
  { o with unionBytes := 2 ^ 32 * (v % 2 ^ 32) + o.unionBytes % 2 ^ 32 }

/-- Write the `Pointer` field: replace all 8 bytes. -/
def OVERLAPPED.setPointer (o : OVERLAPPED) (v : Nat) : OVERLAPPED :=
  { o with unionBytes := v % 2 ^ 64 }

/-! ## Concrete environments used by witnesses -/

/-- A platform state with descriptor 3 open (handle 77) and all other
descriptors closed. -/
def osStateW : OSState := ⟨fun fd => if fd = 3 then some 77 else none⟩

/-- A platform state with descriptor 5 open (handle 500) and all other
descriptors closed. -/
def osStateC1 : OSState := ⟨fun fd => if fd = 5 then some 500 else none⟩

/-- An interpreter heap whose next allocation lands above 2 ^ 32, as on
any 64-bit CPython whose heap sits above the low 4 GiB. -/
def heapC1 : PyHeap := ⟨2 ^ 32 + 1024, []⟩

/-- A platform-header environment defining FILE_FLAG_SESSION_AWARE with
the (deliberately non-standard) value 42 and nothing else. -/
def platformDefsW : String → Option Int :=
  fun n => if n = "FILE_FLAG_SESSION_AWARE" then some 42 else none

/-! ## Helper lemmas -/

/-- Boolean membership agrees with list membership. -/
theorem memStr_iff {s : String} {l : List String} : memStr s l = true ↔ s ∈ l := by
  induction l with
  | nil => simp [memStr]
  | cons x xs ih =>
      simp only [memStr, List.mem_cons]
      by_cases h : x = s
      · simp [h, eq_comm]
      · simp [h, ih, Ne.symm h]

/-- Boolean membership agrees with list membership (naturals). -/
theorem memNat_iff {n : Nat} {l : List Nat} : memNat n l = true ↔ n ∈ l := by
  induction l with
  | nil => simp [memNat]
  | cons x xs ih =>
      simp only [memNat, List.mem_cons]
      by_cases h : x = n
      · simp [h, eq_comm]
      · simp [h, ih, Ne.symm h]

/-- A string outside a list has count zero. -/
theorem countStr_eq_zero_of_not_mem {s : String} {l : List String} (h : s ∉ l) :
    countStr l s = 0 := by
  induction l with
  | nil => rfl
  | cons x xs ih =>
      simp only [List.mem_cons, not_or] at h
      have hxs : ¬ x = s := fun hx => h.1 hx.symm
      simp [countStr, hxs, ih h.2]

/-- In a duplicate-free list every string occurs at most once. -/
theorem nodup_countStr_le_one {l : List String} (hl : l.Nodup) (s : String) :
    countStr l s ≤ 1 := by
  induction l with
  | nil => simp [countStr]
  | cons x xs ih =>
      rw [List.nodup_cons] at hl
      by_cases h : x = s
      · subst h
        simp [countStr, countStr_eq_zero_of_not_mem hl.1]
      · simpa [countStr, h] using ih hl.2

/-- Boolean distinctness implies Nodup. -/
theorem distinctNat_nodup : ∀ {l : List Nat}, distinctNat l = true → l.Nodup := by
  intro l
  induction l with
  | nil => intro _; exact List.nodup_nil
  | cons x xs ih =>
      intro h
      rw [distinctNat, Bool.and_eq_true, Bool.not_eq_true'] at h
      refine List.nodup_cons.mpr ⟨?_, ih h.2⟩
      intro hmem
      have ht : memNat x xs = true := memNat_iff.mpr hmem
      rw [h.1] at ht
      exact Bool.noConfusion ht

/-! ## Claim theorems -/

/-- C1: refuted by the code — at the concrete environment below (64-bit
build, interpreter heap allocating at address 2 ^ 32 + 1024, descriptor
5 open with native handle 500) the composition the claim describes
yields 500, while the code truncates the address of the freshly boxed
Python object to an int and hands THAT to handle_from_fd, yielding the
invalid-handle sentinel.  The descriptor value survives only inside the
leaked heap object, so the intermediate value the code passes on does
lose the information the claim says is preserved. -/
theorem socket_from_fd_passes_object_address :
    socket_from_fd_spec true osStateC1 5 = 500 ∧
    (socket_from_fd true osStateC1 heapC1 5).1 = INVALID_HANDLE_VALUE ∧
    (socket_from_fd true osStateC1 heapC1 5).1 ≠ socket_from_fd_spec true osStateC1 5 ∧
    toInt32 (2 ^ 32 + 1024) = 1024 ∧
    (socket_from_fd true osStateC1 heapC1 5).2.boxed = [(2 ^ 32 + 1024, 5)] := by
  decide

/-- C2: refuted — CREATE_PROTECTED_PROCESS is declared by two distinct
#define lines of constants.h (extraction positions 18 and 23), and so is
PIPE_TYPE_MESSAGE (positions 84 and 92), so the declared constant names
are not pairwise distinct. -/
theorem constants_table_has_duplicate_names :
    (extractDefines constantsHLines)[18]? = some "CREATE_PROTECTED_PROCESS" ∧
    (extractDefines constantsHLines)[23]? = some "CREATE_PROTECTED_PROCESS" ∧
    (extractDefines constantsHLines)[84]? = some "PIPE_TYPE_MESSAGE" ∧
    (extractDefines constantsHLines)[92]? = some "PIPE_TYPE_MESSAGE" ∧
    ¬ (extractDefines constantsHLines).Nodup := by
  refine ⟨by decide, by decide, by decide, by decide, ?_⟩
  intro hnd
  have hle := nodup_countStr_le_one hnd "CREATE_PROTECTED_PROCESS"
  have h2 : countStr (extractDefines constantsHLines) "CREATE_PROTECTED_PROCESS" = 2 := by
    decide
  omega

/-- C2 (amended): constant names in the Constant Table are unique except
CREATE_PROTECTED_PROCESS and PIPE_TYPE_MESSAGE, each declared exactly
twice: both names have extraction count two, and the extraction with
those two names filtered out is duplicate-free. -/
theorem constants_table_duplicates_exactly_two :
    countStr (extractDefines constantsHLines) "CREATE_PROTECTED_PROCESS" = 2 ∧
    countStr (extractDefines constantsHLines) "PIPE_TYPE_MESSAGE" = 2 ∧
    ((extractDefines constantsHLines).filter
        (fun n => !(n == "CREATE_PROTECTED_PROCESS") &&
                  !(n == "PIPE_TYPE_MESSAGE"))).Nodup := by
  refine ⟨by decide, by decide, ?_⟩
  exact List.Nodup.of_map strCode (distinctNat_nodup (by decide))

/-- C3: refuted — the OpenProcess entry of the earlier revision
(kernel32.h line 24, return type BOOL) is not present in the later
revision functions.h, whose OpenProcess returns HANDLE; moreover
GetCurrentProcessId of the earlier revision is absent from the later one
altogether, so the later table is not a superset of the earlier. -/
theorem functions_table_not_superset :
    (⟨"OpenProcess", "BOOL", ["DWORD", "BOOL", "DWORD"]⟩ : FunctionDescriptor) ∈
      kernel32Functions ∧
    (⟨"OpenProcess", "BOOL", ["DWORD", "BOOL", "DWORD"]⟩ : FunctionDescriptor) ∉
      functionsHFunctions ∧
    (⟨"GetCurrentProcessId", "DWORD", []⟩ : FunctionDescriptor) ∈
      kernel32Functions ∧
    ∀ f ∈ functionsHFunctions, f.fname ≠ "GetCurrentProcessId" := by decide

/-- C3 (amended): between the two provided revisions, every entry of the
earlier kernel32.h other than OpenProcess, ReadFile and
GetCurrentProcessId recurs unchanged in functions.h; OpenProcess changes
return type from BOOL to HANDLE, ReadFile changes its second parameter
from LPCVOID to LPVOID, and GetCurrentProcessId is dropped; every other
later entry is an addition (SetLastError, the pipe peek/info/state
queries, handle_from_fd, GetStdHandle) — and no process-exit-code or
file-locking entry is present in the later revision. -/
theorem functions_table_revision_delta :
    (∀ f ∈ kernel32Functions,
        f.fname = "OpenProcess" ∨ f.fname = "ReadFile" ∨
        f.fname = "GetCurrentProcessId" ∨ f ∈ functionsHFunctions) ∧
    (⟨"OpenProcess", "HANDLE", ["DWORD", "BOOL", "DWORD"]⟩ :
      FunctionDescriptor) ∈ functionsHFunctions ∧
    (⟨"ReadFile", "BOOL",
        ["HANDLE", "LPVOID", "DWORD", "LPDWORD", "LPOVERLAPPED"]⟩ :
      FunctionDescriptor) ∈ functionsHFunctions ∧
    (∀ f ∈ functionsHFunctions,
        f ∈ kernel32Functions ∨
        f.fname ∈ (["SetLastError", "OpenProcess", "PeekNamedPipe",
          "GetNamedPipeInfo", "SetNamedPipeHandleState",
          "GetNamedPipeHandleState", "ReadFile", "handle_from_fd",
          "GetStdHandle"] : List String)) ∧
    (∀ f ∈ functionsHFunctions,
        f.fname ≠ "GetExitCodeProcess" ∧ f.fname ≠ "LockFile" ∧
        f.fname ≠ "LockFileEx" ∧ f.fname ≠ "UnlockFile" ∧
        f.fname ≠ "UnlockFileEx") := by decide

/-- C4: handle_from_fd returns exactly the platform descriptor-to-handle
query result, reinterpreted as a handle: on an open descriptor the
associated handle, on any other descriptor the invalid-handle sentinel.
The embedding is a total function into handles — there is no exception
path, no error branch, and no state write in the translated body. -/
theorem handle_from_fd_returns_osfhandle (st : OSState) (fd : Int) :
    handle_from_fd st fd = get_osfhandle st fd ∧
    (st.osfTable fd = none → handle_from_fd st fd = INVALID_HANDLE_VALUE) ∧
    (∀ h, st.osfTable fd = some h → handle_from_fd st fd = h) := by
  refine ⟨rfl, ?_, ?_⟩
  · intro h; simp [handle_from_fd, get_osfhandle, h]
  · intro h hh; simp [handle_from_fd, get_osfhandle, hh]

/-- C4 witness: in the concrete state with only descriptor 3 open
(handle 77), descriptor 5 yields the sentinel and descriptor 3 yields
77. -/
theorem handle_from_fd_returns_osfhandle_witness :
    handle_from_fd osStateW 5 = INVALID_HANDLE_VALUE ∧
    handle_from_fd osStateW 3 = 77 :=
  ⟨(handle_from_fd_returns_osfhandle osStateW 5).2.1 (by decide),
   (handle_from_fd_returns_osfhandle osStateW 3).2.2 77 (by decide)⟩

/-- C5: constant resolution tries the platform headers first and the
hard-coded literal second — whenever the platform defines a name its
value is used (the fallback never overrides it), and when the platform
omits one of the five fallback names the shim literal (0x00800000,
0x00008000, 0x00002000, 0x00001000, 0x00000800 respectively) supplies
the value. -/
theorem constant_resolution_two_sources (platformDefs : String → Option Int) :
    (∀ n v, platformDefs n = some v →
        resolveConstant platformDefs n = some v) ∧
    (platformDefs "FILE_FLAG_SESSION_AWARE" = none →
        resolveConstant platformDefs "FILE_FLAG_SESSION_AWARE" =
          some 0x00800000) ∧
    (platformDefs "STARTF_UNTRUSTEDSOURCE" = none →
        resolveConstant platformDefs "STARTF_UNTRUSTEDSOURCE" =
          some 0x00008000) ∧
    (platformDefs "STARTF_PREVENTPINNING" = none →
        resolveConstant platformDefs "STARTF_PREVENTPINNING" =
          some 0x00002000) ∧
    (platformDefs "STARTF_TITLEISAPPID" = none →
        resolveConstant platformDefs "STARTF_TITLEISAPPID" =
          some 0x00001000) ∧
    (platformDefs "STARTF_TITLEISLINKNAME" = none →
        resolveConstant platformDefs "STARTF_TITLEISLINKNAME" =
          some 0x00000800) := by
  refine ⟨fun n v h => by simp [resolveConstant, h], ?_, ?_, ?_, ?_, ?_⟩
  all_goals intro h
  all_goals simp only [resolveConstant, h]
  all_goals decide

/-- C5 witness: with a platform environment defining only
FILE_FLAG_SESSION_AWARE (as 42), resolution returns the platform value
for that name and the shim literal for STARTF_PREVENTPINNING. -/
theorem constant_resolution_two_sources_witness :
    resolveConstant platformDefsW "FILE_FLAG_SESSION_AWARE" = some 42 ∧
    resolveConstant platformDefsW "STARTF_PREVENTPINNING" = some 0x00002000 :=
  ⟨(constant_resolution_two_sources platformDefsW).1
      "FILE_FLAG_SESSION_AWARE" 42 (by decide),
   (constant_resolution_two_sources platformDefsW).2.2.2.1 (by decide)⟩

/-- C6: in the OVERLAPPED union, the Offset/OffsetHigh pair and Pointer
address identical storage — writing Offset then OffsetHigh and reading
Pointer observes exactly the written bytes (low word Offset, high word
OffsetHigh), both DWORD views read back unchanged, and writing Pointer
then reading Offset/OffsetHigh observes exactly the low and high words
of the written value. -/
theorem overlapped_union_aliasing (o : OVERLAPPED) (a b p : Nat)
    (ha : a < 2 ^ 32) (hb : b < 2 ^ 32) (hp : p < 2 ^ 64) :
    ((o.setOffset a).setOffsetHigh b).Pointer = 2 ^ 32 * b + a ∧
    ((o.setOffset a).setOffsetHigh b).Offset = a ∧
    ((o.setOffset a).setOffsetHigh b).OffsetHigh = b ∧
    (o.setPointer p).Offset = p % 2 ^ 32 ∧
    (o.setPointer p).OffsetHigh = p / 2 ^ 32 ∧
    (o.setPointer p).Pointer = p := by
  simp only [OVERLAPPED.setOffset, OVERLAPPED.setOffsetHigh,
    OVERLAPPED.setPointer, OVERLAPPED.Offset, OVERLAPPED.OffsetHigh,
    OVERLAPPED.Pointer]
  omega

/-- C6 witness: the aliasing equalities at the concrete record with zero
fields, Offset 0x11223344, OffsetHigh 0x55667788 and Pointer
0x0102030405060708. -/
theorem overlapped_union_aliasing_witness :
    (((OVERLAPPED.mk 0 0 0 0).setOffset 287454020).setOffsetHigh
        1432778632).Pointer = 2 ^ 32 * 1432778632 + 287454020 ∧
    (((OVERLAPPED.mk 0 0 0 0).setOffset 287454020).setOffsetHigh
        1432778632).Offset = 287454020 ∧
    (((OVERLAPPED.mk 0 0 0 0).setOffset 287454020).setOffsetHigh
        1432778632).OffsetHigh = 1432778632 ∧
    ((OVERLAPPED.mk 0 0 0 0).setPointer 72623859790382856).Offset =
        72623859790382856 % 2 ^ 32 ∧
    ((OVERLAPPED.mk 0 0 0 0).setPointer 72623859790382856).OffsetHigh =
        72623859790382856 / 2 ^ 32 ∧
    ((OVERLAPPED.mk 0 0 0 0).setPointer 72623859790382856).Pointer =
        72623859790382856 :=
  overlapped_union_aliasing (OVERLAPPED.mk 0 0 0 0) 287454020 1432778632
    72623859790382856 (by decide) (by decide) (by decide)

/-- C7: refuted for the function table — GetNamedPipeHandleState is a
declared function of functions.h, but its declaration spans lines 20-21,
so no single line has the full form `RETURNTYPE Name(params);` for it
and the single-line convention stated by the claim misses this declared
name. -/
theorem strict_function_convention_misses_name :
    memStr "GetNamedPipeHandleState" functionsDeclared = true ∧
    memStr "GetNamedPipeHandleState" (extractFunsStrict functionsHLines) =
      false := by decide

/-- C7 (amended): scanning each declaration table with its documented
line convention — `#define NAME ...` for constants, closing lines
`\x7d NAME, NAME, NAME;` for structs, and for functions the convention
documented in functions.h itself, `RETURN_TYPE FunctionName(` with the
parameter list free to continue on the next line — extracts exactly the
names declared in each file, in order; the single-line function form the
claim states fails only for GetNamedPipeHandleState. -/
theorem table_scanning_extracts_declared_names :
    extractDefines constantsHLines = constantsDeclared ∧
    extractStructNames structsHLines = structsDeclared ∧
    extractFunsDecl functionsHLines = functionsDeclared := by
  refine ⟨by decide, by decide, by decide⟩

/-- C8: the Constant Table does not expose the invalid-handle sentinel —
no #define line of constants.h declares INVALID_HANDLE_VALUE; the only
mention of the name in the file is the commented-out define on line 147,
and the sentinel value itself is negative (the reason, per the comment
on lines 144-146, it cannot pass through the binding generator, which
accepts only positive integers). -/
theorem invalid_handle_value_not_exposed :
    memStr "INVALID_HANDLE_VALUE" (extractDefines constantsHLines) = false ∧
    memStr "//#define INVALID_HANDLE_VALUE ..." constantsHLines = true ∧
    INVALID_HANDLE_VALUE < 0 := by
  refine ⟨by decide, by decide, by decide⟩

/-- C9: the SECURITY_ATTRIBUTES and OVERLAPPED struct descriptors of the
cdefs structs file and of the standalone kernel32 header are identical —
same tag, same fields in the same order with the same types (union
included), same typedef names — so both revisions denote the same
memory layout. -/
theorem struct_descriptors_identical_across_revisions :
    securityAttributesCdefs = securityAttributesKernel32 ∧
    overlappedCdefs = overlappedKernel32 := by decide

/-- C10: none of the four STARTF fallback names of the C shim appears in
any #define line of the Constant Table, while each of them does carry a
fallback literal in the shim — the names exist as fallbacks only and are
never exposed to binding consumers. -/
theorem startf_fallbacks_not_in_constants_table :
    (startfFallbackNames.all
        (fun n => !(memStr n (extractDefines constantsHLines)))) = true ∧
    (startfFallbackNames.all
        (fun n => (lookupFallback fallbackConstants n).isSome)) = true := by
  refine ⟨by decide, by decide⟩

end PyWinCFFI
